import Mathlib

/-!
Verification of the Renogy Smart Shunt BLE module (`renogy_ble/shunt.py`).

The Python module is shallowly embedded: byte strings become `List Nat`,
Python floats become `ℚ` (with Python's banker's rounding for `round`),
the mutable per-client energy dictionary becomes an explicit state of type
`String → Option (ℚ × ℚ)` threaded through the functions, and the
async read session `read_device` becomes a pure function over an abstract
transport behaviour describing the outcome of each transport interaction.
-/

/-- Python's `round` on exact rationals: round half to even, to an integer. -/
def rhe (q : ℚ) : ℤ :=
  let f : ℤ := Int.floor q
  let r : ℚ := q - (f : ℚ)
  if r < 1/2 then f
  else if 1/2 < r then f + 1
  else if f % 2 = 0 then f else f + 1

/-- Python's `round(q, d)` for `d ≥ 0` decimal places (half-to-even). -/
def roundTo (q : ℚ) (d : Nat) : ℚ :=
  ((rhe (q * 10 ^ d) : ℚ)) / 10 ^ d

/-- `int.from_bytes(bs, byteorder="big", signed=False)`, as the source
computes it: a big-endian fold over the bytes. -/
def int_from_bytes (bs : List Nat) : Nat :=
  bs.foldl (fun acc b => acc * 256 + b) 0

/-- Reference (non-foldl) big-endian value of a byte list, used only in
statements that characterise `int_from_bytes` independently. -/
def beSpecVal : List Nat → Nat
  | [] => 0
  | b :: rest => b * 256 ^ rest.length + beSpecVal rest

/-- Embedding of `_bytes_to_number(payload, offset, length, *, signed, scale,
decimals)` from `shunt.py`: returns `none` when the payload is too short,
otherwise the big-endian (optionally two's-complement signed) integer of the
slice, scaled and optionally rounded. -/
def bytes_to_number (payload : List Nat) (offset length : Nat)
    (signed : Bool) (scale : ℚ) (decimals : Option Nat) : Option ℚ :=
  if payload.length < offset + length then none
  else
    let raw : Nat := int_from_bytes ((payload.drop offset).take length)
    let value : ℤ :=
      if signed = true ∧ 2 ^ (8 * length - 1) ≤ raw then
        (raw : ℤ) - 2 ^ (8 * length)
      else (raw : ℤ)
    let scaled : ℚ := (value : ℚ) * scale
    match decimals with
    | some d => some (roundTo scaled d)
    | none => some scaled

/-- The field mapping returned by `parse_shunt_payload` (a Python dict with
these seven fixed keys; `shunt_energy` is always `None` at parse time). -/
structure ShuntData where
  shunt_voltage : ℚ
  shunt_current : ℚ
  shunt_power : ℚ
  shunt_soc : Option ℚ
  shunt_energy : Option ℚ
  starter_battery_voltage : Option ℚ
  battery_temperature : Option ℚ
deriving DecidableEq

/-- Embedding of `parse_shunt_payload` from `shunt.py`. -/
def parse_shunt_payload (payload : List Nat) : Option ShuntData :=
  let voltage := bytes_to_number payload 25 3 false (1/1000) (some 2)
  let starter_voltage := bytes_to_number payload 30 2 false (1/1000) (some 2)
  let current := bytes_to_number payload 21 3 true (1/1000) (some 2)
  let power :=
    match voltage, current with
    | some v, some c => some (roundTo (v * c) 2)
    | _, _ => none
  let soc := bytes_to_number payload 34 2 false (1/10) (some 1)
  let battery_temp := bytes_to_number payload 66 2 false (1/10) (some 1)
  match voltage, current, power with
  | some v, some c, some pw =>
    if v < 0 ∨ 80 < v then none
    else if 500 < |c| then none
    else if 10000 < |pw| then none
    else
      let battery_temp2 : Option ℚ :=
        match battery_temp with
        | some t => if t < -40 ∨ 100 < t then none else some t
        | none => none
      let soc2 : Option ℚ :=
        match soc with
        | some s => if s < 0 ∨ 200 < s then none else some s
        | none => none
      some ⟨v, c, pw, soc2, none, starter_voltage, battery_temp2⟩
  | _, _, _ => none

/-- Splice `bs` into `l` starting at position `off` (Python slice assignment
`l[off:off+len(bs)] = bs` on a list long enough to hold it). -/
def overwrite (l : List Nat) (off : Nat) (bs : List Nat) : List Nat :=
  l.take off ++ bs ++ l.drop (off + bs.length)

/-- A synthetic 110-byte Smart Shunt payload in the shape of the repository
test helper `_build_payload`: voltage bytes at 25..27, current at 21..23,
starter voltage 13.1 V at 30..31, SoC 85.4 % at 34..35, battery temperature
24.5 °C at 66..67. -/
def mkPayload (vBytes cBytes : List Nat) : List Nat :=
  overwrite (overwrite (overwrite (overwrite
    (overwrite (List.replicate 110 0) 25 vBytes) 21 cBytes)
    30 [0x33, 0x2C]) 34 [0x03, 0x56]) 66 [0x00, 0xF5]

/-- `_build_payload(voltage=0.5, current=-5.4)`: voltage bytes encode 500,
current bytes encode −5400 in 3-byte two's complement. -/
def payload05 : List Nat := mkPayload [0x00, 0x01, 0xF4] [0xFF, 0xEA, 0xE8]

/-- `_build_payload(voltage=150.0, current=-5.4)`: voltage bytes encode 150000. -/
def payload150 : List Nat := mkPayload [0x02, 0x49, 0xF0] [0xFF, 0xEA, 0xE8]

/-- `_build_payload(voltage=13.2, current=4.3)`: the valid frame used by the
repository's misaligned-stream tests. -/
def validPayload43 : List Nat := mkPayload [0x00, 0x33, 0x90] [0x00, 0x10, 0xCC]

/-- The misaligned notification stream of the repository test
`test_find_valid_payload_window_recovers_from_misaligned_frame`:
five garbage bytes `aa bb cc dd ee` followed by a valid 110-byte frame. -/
def misalignedStream : List Nat := [0xAA, 0xBB, 0xCC, 0xDD, 0xEE] ++ validPayload43

/-- `_build_payload(voltage=13.2, current=-5.4)` with the SoC field set to
250.0 % (raw 2500) and the battery temperature set to 150.0 °C (raw 1500),
both outside their plausible ranges. -/
def payloadBadAux : List Nat :=
  overwrite (overwrite (mkPayload [0x00, 0x33, 0x90] [0xFF, 0xEA, 0xE8])
    34 [0x09, 0xC4]) 66 [0x05, 0xDC]

/-! ### Payload window scanner -/

/-- Modelled from the spec: the repository function `_find_valid_payload_window`
(PayloadScanner, spec section 4.3) is imported by the repository's tests but its
definition is not present under `src/`. Per the spec it tries successive start
offsets `0, 1, 2, …` while `offset + expectedLength ≤ len(buffer)`, slices
`expectedLength` bytes at each offset, attempts `parse_shunt_payload`, and
returns the first slice that decodes together with its decoded fields, or
`none` when no offset succeeds. -/
def find_valid_payload_window (buffer : List Nat) (expected : Nat) :
    Option (List Nat × ShuntData) :=
  (List.range (buffer.length + 1 - expected)).findSome? (fun offset =>
    let slice := (buffer.drop offset).take expected
    match parse_shunt_payload slice with
    | some d => some (slice, d)
    | none => none)

/-! ### Energy integration -/

/-- The per-client `_energy_state` dictionary, keyed by device address:
`address ↦ (last timestamp in seconds, net watt-hours so far)`. -/
def EnergyState : Type := String → Option (ℚ × ℚ)

/-- Embedding of `ShuntBleClient._integrate_energy`: the mutable dictionary
becomes an explicit state, returned next to the net energy in kWh. -/
def integrate_energy (st : EnergyState) (device_address : String)
    (power_w : Option ℚ) (now_ts : ℚ) : EnergyState × ℚ :=
  match st device_address with
  | none => (fun a => if a = device_address then some (now_ts, 0) else st a, 0)
  | some (last_ts, net_wh) =>
    let dt_hours := (now_ts - last_ts) / 3600
    let net_wh2 :=
      match power_w with
      | some p => if 0 < dt_hours ∧ dt_hours < 10 then net_wh + p * dt_hours else net_wh
      | none => net_wh
    (fun a => if a = device_address then some (now_ts, net_wh2) else st a, net_wh2 / 1000)

/-- The energy integrator as the spec words it (section 4.4): on the first
observation of an address store `(now, 0.0)` and return 0; otherwise compute
`deltaHours = (now − lastTimestamp) / 3600`, accumulate
`netWattHours += power × deltaHours` exactly when `0 < deltaHours < 10` and
power is present, always update the stored timestamp, and return
`netWattHours / 1000`. -/
def integrate_energy_ref (st : EnergyState) (addr : String)
    (power : Option ℚ) (now : ℚ) : EnergyState × ℚ :=
  match st addr with
  | none => (fun a => if a = addr then some (now, 0) else st a, 0)
  | some (last, wh) =>
    let deltaHours := (now - last) / 3600
    let wh2 :=
      if 0 < deltaHours ∧ deltaHours < 10 ∧ power.isSome then
        wh + power.getD 0 * deltaHours
      else wh
    (fun a => if a = addr then some (now, wh2) else st a, wh2 / 1000)

/-! ### Read session -/

/-- A value stored in a device's `parsed_data` dictionary: a number, Python
`None`, the raw-payload hex string, or the 16-bit word decomposition. -/
inductive Value where
  | num (q : ℚ)
  | null
  | text (s : String)
  | words (ns : List Nat)
deriving DecidableEq

/-- A Python dict as an insertion-ordered association list. -/
def Dict : Type := List (String × Value)

instance : DecidableEq Dict := inferInstanceAs (DecidableEq (List (String × Value)))

/-- Modelled from the spec: `RenogyBLEDevice` lives in the repository module
`renogy_ble/ble.py`, which is not present under `src/`; per the spec's
DeviceHandle (section 3) it carries an address and a mutable `parsed_data`
mapping. Only the fields `read_device` touches are modelled. -/
structure RenogyBLEDevice where
  address : String
  parsed_data : Dict
deriving DecidableEq

/-- The session-level error causes distinguished by the embedding (the Python
code stores caught exceptions in the local `error` variable). -/
inductive SErr where
  | connectFail
  | notifyFail
  | timeout
  | emptyParse
  | stopNotifyFail
  | disconnectFail
deriving DecidableEq

/-- Modelled from the spec: `RenogyBleReadResult` lives in `renogy_ble/ble.py`
(not under `src/`); per the spec's ReadResult (section 3) it is a triple of
success flag, a copy of the parsed-data mapping, and an optional error. -/
structure RenogyBleReadResult where
  success : Bool
  parsed_data : Dict
  error : Option SErr
deriving DecidableEq

/-- The outcome of each transport interaction of one `read_device` call:
whether `establish_connection` raises, whether `start_notify` raises, the
accumulated notification buffer (`none` when the wait-loop budget elapses
first), whether `stop_notify` raises, what `client.is_connected` reports in
the `finally` block, and whether `disconnect` raises. -/
structure TransportBehavior where
  connect_result : Option SErr
  start_notify_result : Option SErr
  wait_result : Option (List Nat)
  stop_notify_result : Option SErr
  is_connected : Bool
  disconnect_result : Option SErr

/-- One lowercase hex digit. -/
def hexChar (n : Nat) : Char :=
  if n < 10 then Char.ofNat (48 + n) else Char.ofNat (87 + n)

/-- `bytes.hex()` of one byte: two lowercase hex digits. -/
def byteHex (b : Nat) : String :=
  String.mk [hexChar (b / 16 % 16), hexChar (b % 16)]

/-- `raw_payload.hex()`. -/
def bytesHex (bs : List Nat) : String :=
  String.join (bs.map byteHex)

/-- The `raw_words` diagnostic list: big-endian 16-bit words of the payload. -/
def rawWords (bs : List Nat) : List Nat :=
  (List.range (bs.length / 2)).map (fun i => int_from_bytes ((bs.drop (2 * i)).take 2))

/-- The dict `read_device` stores into `device.parsed_data` on success: the
seven parse keys in insertion order with `shunt_energy` overwritten in place,
then the two diagnostic keys appended. -/
def successDict (d : ShuntData) (raw : List Nat) (netKwh : ℚ) : Dict :=
  [("shunt_voltage", Value.num d.shunt_voltage),
   ("shunt_current", Value.num d.shunt_current),
   ("shunt_power", Value.num d.shunt_power),
   ("shunt_soc", match d.shunt_soc with | some q => Value.num q | none => Value.null),
   ("shunt_energy", Value.num (roundTo netKwh 3)),
   ("starter_battery_voltage",
     match d.starter_battery_voltage with | some q => Value.num q | none => Value.null),
   ("battery_temperature",
     match d.battery_temperature with | some q => Value.num q | none => Value.null),
   ("raw_payload", Value.text (bytesHex raw)),
   ("raw_words", Value.words (rawWords raw))]

/-- The `try:`-body of `read_device` after a successful connection, up to but
not including the `finally:` block: returns the updated energy state, the
updated device, the `success` flag, and the `error` variable. Mirrors the
source: a `start_notify` failure or a wait timeout aborts; otherwise the first
`expected` buffered bytes are parsed; on a truthy parse the energy is
integrated, the dict is built and stored on the device, and `success` is set;
on a falsy parse `error` is set to the parse-failure error; `stop_notify` runs
next and an exception there lands in `error` via the generic handler
(overwriting a parse-failure error). -/
def run_connected (st : EnergyState) (dev : RenogyBLEDevice)
    (tb : TransportBehavior) (now : ℚ) (expected : Nat) :
    EnergyState × RenogyBLEDevice × Bool × Option SErr :=
  match tb.start_notify_result with
  | some e => (st, dev, false, some e)
  | none =>
    match tb.wait_result with
    | none => (st, dev, false, some SErr.timeout)
    | some buffer =>
      let raw := buffer.take expected
      match parse_shunt_payload raw with
      | some d =>
        let r := integrate_energy st dev.address (some d.shunt_power) now
        let dev2 : RenogyBLEDevice :=
          { dev with parsed_data := successDict d raw r.2 }
        match tb.stop_notify_result with
        | some e => (r.1, dev2, true, some e)
        | none => (r.1, dev2, true, none)
      | none =>
        match tb.stop_notify_result with
        | some e => (st, dev, false, some e)
        | none => (st, dev, false, some SErr.emptyParse)

/-- The `finally:` block of `read_device`: when the transport still reports
itself connected, disconnect is attempted and an exception there is kept only
when no earlier error exists. -/
def finally_error (tb : TransportBehavior) (err : Option SErr) : Option SErr :=
  if tb.is_connected then
    match tb.disconnect_result with
    | some e => match err with | none => some e | some e0 => some e0
    | none => err
  else err

/-- Embedding of `ShuntBleClient.read_device`: a connection failure returns at
once with a copy of the stale `device.parsed_data`; otherwise the connected
body runs, the `finally:` disconnect logic is applied, and the result copies
whatever `device.parsed_data` holds at return time. -/
def read_device (st : EnergyState) (dev : RenogyBLEDevice)
    (tb : TransportBehavior) (now : ℚ) (expected : Nat) :
    EnergyState × RenogyBLEDevice × RenogyBleReadResult :=
  match tb.connect_result with
  | some e => (st, dev, ⟨false, dev.parsed_data, some e⟩)
  | none =>
    let r := run_connected st dev tb now expected
    (r.1, r.2.1, ⟨r.2.2.1, r.2.1.parsed_data, finally_error tb r.2.2.2⟩)

/-- The empty energy state: no address observed yet. -/
def esEmpty : EnergyState := fun _ => none

/-- A stale, non-empty `parsed_data` mapping left from an earlier read. -/
def staleDict : Dict :=
  [("shunt_voltage", Value.num (66/5)), ("raw_payload", Value.text "stale")]

/-- A device holding stale parsed data from an earlier successful read. -/
def staleDevice : RenogyBLEDevice := ⟨"AA:BB:CC:DD:EE:FF", staleDict⟩

/-- Behaviour: `establish_connection` raises. -/
def tbConnectFail : TransportBehavior :=
  ⟨some SErr.connectFail, none, none, none, false, none⟩

/-- Behaviour: connection succeeds, then the payload wait times out; the
transport still reports connected and disconnect succeeds. -/
def tbWaitTimeout : TransportBehavior := ⟨none, none, none, none, true, none⟩

/-- Behaviour: connection succeeds, `start_notify` raises, and disconnect
also raises. -/
def tbNotifyFailDiscFail : TransportBehavior :=
  ⟨none, some SErr.notifyFail, none, none, true, some SErr.disconnectFail⟩

/-- Behaviour: connection succeeds and the wait times out while the transport
no longer reports itself connected. -/
def tbNotConnected : TransportBehavior := ⟨none, none, none, none, false, none⟩

/-- Behaviour: a fully successful session delivering `payload05`, after which
disconnect raises. -/
def tbHappyDiscFail : TransportBehavior :=
  ⟨none, none, some payload05, none, true, some SErr.disconnectFail⟩

/-! ### Evaluation helpers for `bytes_to_number` -/

theorem btn_none (p : List Nat) (off len : Nat) (sgn : Bool) (sc : ℚ)
    (d : Option Nat) (h : p.length < off + len) :
    bytes_to_number p off len sgn sc d = none := by
  simp [bytes_to_number, h]

theorem btn_unsigned_eval (p : List Nat) (off len : Nat) (sc : ℚ) (k : Nat)
    (n : Nat) (hlen : off + len ≤ p.length)
    (hn : int_from_bytes ((p.drop off).take len) = n) :
    bytes_to_number p off len false sc (some k) = some (roundTo ((n : ℚ) * sc) k) := by
  simp [bytes_to_number, Nat.not_lt.mpr hlen, hn]

theorem btn_signed_large_eval (p : List Nat) (off len : Nat) (sc : ℚ) (k : Nat)
    (n : Nat) (hlen : off + len ≤ p.length)
    (hn : int_from_bytes ((p.drop off).take len) = n)
    (hsign : 2 ^ (8 * len - 1) ≤ n) :
    bytes_to_number p off len true sc (some k) =
      some (roundTo ((((n : ℤ) - 2 ^ (8 * len) : ℤ) : ℚ) * sc) k) := by
  simp [bytes_to_number, Nat.not_lt.mpr hlen, hn, hsign]

theorem btn_signed_small_eval (p : List Nat) (off len : Nat) (sc : ℚ) (k : Nat)
    (n : Nat) (hlen : off + len ≤ p.length)
    (hn : int_from_bytes ((p.drop off).take len) = n)
    (hsign : n < 2 ^ (8 * len - 1)) :
    bytes_to_number p off len true sc (some k) = some (roundTo ((n : ℚ) * sc) k) := by
  simp [bytes_to_number, Nat.not_lt.mpr hlen, hn, Nat.not_le.mpr hsign]

theorem parse_payload05_eval :
    parse_shunt_payload payload05 =
      some ⟨1/2, -27/5, -27/10, some (427/5), none, some (131/10), some (49/2)⟩ := by
  have hv := btn_unsigned_eval payload05 25 3 (1/1000) 2 500 (by decide) (by decide)
  have hst := btn_unsigned_eval payload05 30 2 (1/1000) 2 13100 (by decide) (by decide)
  have hc := btn_signed_large_eval payload05 21 3 (1/1000) 2 16771816 (by decide) (by decide) (by decide)
  have hsoc := btn_unsigned_eval payload05 34 2 (1/10) 1 854 (by decide) (by decide)
  have ht := btn_unsigned_eval payload05 66 2 (1/10) 1 245 (by decide) (by decide)
  simp only [parse_shunt_payload, hv, hst, hc, hsoc, ht]
  norm_num [roundTo, rhe, abs_le, lt_abs]

theorem parse_payload150_eval : parse_shunt_payload payload150 = none := by
  have hv := btn_unsigned_eval payload150 25 3 (1/1000) 2 150000 (by decide) (by decide)
  have hc := btn_signed_large_eval payload150 21 3 (1/1000) 2 16771816 (by decide) (by decide) (by decide)
  simp only [parse_shunt_payload, hv, hc]
  norm_num [roundTo, rhe]

theorem parse_short12_eval : parse_shunt_payload (List.replicate 12 0) = none := by
  have hv := btn_none (List.replicate 12 0) 25 3 false (1/1000) (some 2) (by decide)
  have hc := btn_none (List.replicate 12 0) 21 3 true (1/1000) (some 2) (by decide)
  simp only [parse_shunt_payload, hv, hc]

theorem parse_slice0_eval :
    parse_shunt_payload (misalignedStream.take 110) =
      some ⟨1/50, 0, 0, some (51/10), none, some (1/20), some 0⟩ := by
  have hv := btn_unsigned_eval (misalignedStream.take 110) 25 3 (1/1000) 2 16 (by decide) (by decide)
  have hst := btn_unsigned_eval (misalignedStream.take 110) 30 2 (1/1000) 2 51 (by decide) (by decide)
  have hc := btn_signed_small_eval (misalignedStream.take 110) 21 3 (1/1000) 2 0 (by decide) (by decide) (by decide)
  have hsoc := btn_unsigned_eval (misalignedStream.take 110) 34 2 (1/10) 1 51 (by decide) (by decide)
  have ht := btn_unsigned_eval (misalignedStream.take 110) 66 2 (1/10) 1 0 (by decide) (by decide)
  simp only [parse_shunt_payload, hv, hst, hc, hsoc, ht]
  norm_num [roundTo, rhe, abs_le, lt_abs]

/-! ### Big-endian fold characterisation -/

theorem foldl_be_eq (bs : List Nat) :
    ∀ acc : Nat, bs.foldl (fun a b => a * 256 + b) acc = acc * 256 ^ bs.length + beSpecVal bs := by
  induction bs with
  | nil => intro acc; simp [beSpecVal]
  | cons b rest ih =>
    intro acc
    simp only [List.foldl_cons, beSpecVal, ih, List.length_cons]
    ring

theorem int_from_bytes_eq_beSpecVal (bs : List Nat) : int_from_bytes bs = beSpecVal bs := by
  simpa using foldl_be_eq bs 0

/-! ### Helper lemmas about the finally block -/

theorem finally_error_some (tb : TransportBehavior) (e : SErr) :
    finally_error tb (some e) = some e := by
  cases hic : tb.is_connected <;> cases hd : tb.disconnect_result <;>
    simp [finally_error, hic, hd]

theorem finally_error_connected_none (tb : TransportBehavior)
    (h : tb.is_connected = true) : finally_error tb none = tb.disconnect_result := by
  cases hd : tb.disconnect_result <;> simp [finally_error, h, hd]

theorem finally_error_not_connected (tb : TransportBehavior)
    (h : tb.is_connected = false) (err : Option SErr) : finally_error tb err = err := by
  simp [finally_error, h]

theorem read_device_connected_eq (st : EnergyState) (dev : RenogyBLEDevice)
    (tb : TransportBehavior) (now : ℚ) (expected : Nat)
    (hc : tb.connect_result = none) :
    read_device st dev tb now expected =
      ((run_connected st dev tb now expected).1,
       (run_connected st dev tb now expected).2.1,
       ⟨(run_connected st dev tb now expected).2.2.1,
        (run_connected st dev tb now expected).2.1.parsed_data,
        finally_error tb (run_connected st dev tb now expected).2.2.2⟩) := by
  simp [read_device, hc]

/-! ### Claim theorems -/

/-- Claim C8: for every payload, offset and length, `_bytes_to_number` returns
`none` exactly when the payload is shorter than `offset + length` (the
embedding is total, so no exception can arise on short input), and otherwise
returns the big-endian (signed or unsigned per the flag) integer of those
bytes times the scale, rounded to the requested decimals when given. -/
theorem bytes_to_number_characterisation (p : List Nat) (off len : Nat)
    (sgn : Bool) (sc : ℚ) (d : Option Nat) :
    bytes_to_number p off len sgn sc d =
      if p.length < off + len then none
      else
        let raw := beSpecVal ((p.drop off).take len)
        let value : ℤ :=
          if sgn = true ∧ 2 ^ (8 * len - 1) ≤ raw then (raw : ℤ) - 2 ^ (8 * len)
          else (raw : ℤ)
        let scaled : ℚ := (value : ℚ) * sc
        match d with
        | some k => some (roundTo scaled k)
        | none => some scaled := by
  unfold bytes_to_number
  rw [int_from_bytes_eq_beSpecVal]

/-- Claim C4: `_integrate_energy` equals the reference definition worded by
the spec, and for a known address 100 W over exactly 3600 s yields the stored
accumulator plus 100 Wh, i.e. the returned net energy grows by 0.1 kWh. -/
theorem integrate_energy_matches_ref :
    (∀ (st : EnergyState) (addr : String) (p : Option ℚ) (now : ℚ),
        integrate_energy st addr p now = integrate_energy_ref st addr p now)
    ∧ (∀ (st : EnergyState) (addr : String) (last wh : ℚ),
        st addr = some (last, wh) →
        (integrate_energy st addr (some 100) (last + 3600)).2 = wh / 1000 + 1/10) := by
  constructor
  · intro st addr p now
    unfold integrate_energy integrate_energy_ref
    cases hst : st addr with
    | none => rfl
    | some pr =>
      obtain ⟨last, wh⟩ := pr
      cases p with
      | none => simp
      | some pw => simp [and_assoc]
  · intro st addr last wh h
    simp only [integrate_energy, h]
    rw [show ((last + 3600 - last : ℚ)) / 3600 = 1 by ring]
    norm_num
    ring

/-- Claim C7: integrating energy for one address leaves every other address's
stored entry unchanged, and the returned energy and the address's updated
entry depend only on that address's prior entry. -/
theorem integrate_energy_isolated :
    (∀ (st : EnergyState) (addr b : String) (p : Option ℚ) (now : ℚ), b ≠ addr →
        (integrate_energy st addr p now).1 b = st b)
    ∧ (∀ (st st2 : EnergyState) (addr : String) (p : Option ℚ) (now : ℚ),
        st addr = st2 addr →
        (integrate_energy st addr p now).2 = (integrate_energy st2 addr p now).2
        ∧ (integrate_energy st addr p now).1 addr =
            (integrate_energy st2 addr p now).1 addr) := by
  constructor
  · intro st addr b p now hb
    unfold integrate_energy
    cases hst : st addr <;> simp [hb]
  · intro st st2 addr p now h
    unfold integrate_energy
    rw [h]
    cases hst : st2 addr <;> simp

theorem integrate_energy_matches_ref_witness :
    (integrate_energy (fun a => if a = "A" then some (5, 50) else none) "A"
      (some 100) (5 + 3600)).2 = 50 / 1000 + 1/10 :=
  integrate_energy_matches_ref.2 _ "A" 5 50 (by simp)

theorem integrate_energy_isolated_witness :
    (integrate_energy (fun _ => none) "A" (some 100) 0).1 "B" = (fun _ => none : EnergyState) "B"
    ∧ (integrate_energy (fun _ => none) "A" (some 100) 0).2 =
        (integrate_energy (fun a => if a = "B" then some (1, 2) else none) "A" (some 100) 0).2 :=
  ⟨integrate_energy_isolated.1 _ "A" "B" (some 100) 0 (by decide),
   (integrate_energy_isolated.2 (fun _ => none)
      (fun a => if a = "B" then some (1, 2) else none) "A" (some 100) 0 (by simp)).1⟩

/-- Claim C5: when establishing the connection fails, `read_device` returns a
failed result whose `parsed_data` echoes the device's stored mapping, and
leaves the device's stored mapping and the energy state untouched. -/
theorem read_device_connect_failure_echoes_stale (st : EnergyState)
    (dev : RenogyBLEDevice) (tb : TransportBehavior) (now : ℚ) (expected : Nat)
    (e : SErr) (h : tb.connect_result = some e) :
    read_device st dev tb now expected = (st, dev, ⟨false, dev.parsed_data, some e⟩) := by
  simp [read_device, h]

theorem read_device_connect_failure_echoes_stale_witness :
    read_device esEmpty staleDevice tbConnectFail 0 110 =
      (esEmpty, staleDevice, ⟨false, staleDevice.parsed_data, some SErr.connectFail⟩) :=
  read_device_connect_failure_echoes_stale esEmpty staleDevice tbConnectFail 0 110
    SErr.connectFail rfl

/-- Claim C1 is refuted by this evaluation: the device enters `read_device`
with non-empty `parsed_data`, the connection succeeds, the payload wait times
out, and on return the device still holds the stale mapping and the failed
result echoes it — nothing is cleared. -/
theorem read_device_post_connect_failure_keeps_stale :
    (read_device esEmpty staleDevice tbWaitTimeout 0 110).2 =
      (staleDevice, ⟨false, staleDict, some SErr.timeout⟩)
    ∧ staleDict ≠ ([] : Dict) := by
  exact ⟨rfl, by simp [staleDict]⟩

/-- Claim C6: once the connection is established the `finally:` disconnect
logic always applies, whatever state the session failed in: an earlier
session error is kept regardless of what disconnect does; when the transport
does not report itself connected, disconnect is not attempted and its would-be
outcome cannot affect the result; and when it is connected and no earlier error
was captured, the result's error is exactly the disconnect outcome. -/
theorem read_device_disconnect_semantics (st : EnergyState)
    (dev : RenogyBLEDevice) (tb : TransportBehavior) (now : ℚ) (expected : Nat)
    (hc : tb.connect_result = none) :
    (∀ e, (run_connected st dev tb now expected).2.2.2 = some e →
        (read_device st dev tb now expected).2.2.error = some e)
    ∧ (tb.is_connected = false → ∀ d,
        read_device st dev { tb with disconnect_result := d } now expected =
          read_device st dev tb now expected)
    ∧ (tb.is_connected = true →
        (run_connected st dev tb now expected).2.2.2 = none →
        (read_device st dev tb now expected).2.2.error = tb.disconnect_result) := by
  refine ⟨?_, ?_, ?_⟩
  · intro e he
    rw [read_device_connected_eq st dev tb now expected hc]
    simp only [he, finally_error_some]
  · intro hic d
    have hc2 : ({ tb with disconnect_result := d } : TransportBehavior).connect_result = none := hc
    have hic2 : ({ tb with disconnect_result := d } : TransportBehavior).is_connected = tb.is_connected := rfl
    rw [read_device_connected_eq st dev _ now expected hc2,
        read_device_connected_eq st dev tb now expected hc]
    rw [finally_error_not_connected _ (hic2.trans hic),
        finally_error_not_connected _ hic]
    have hrc : run_connected st dev { tb with disconnect_result := d } now expected =
        run_connected st dev tb now expected := rfl
    rw [hrc]
  · intro hic hnone
    rw [read_device_connected_eq st dev tb now expected hc]
    simp only [hnone, finally_error_connected_none tb hic]

theorem read_device_disconnect_semantics_witness :
    (read_device esEmpty staleDevice tbNotifyFailDiscFail 0 110).2.2.error =
      some SErr.notifyFail
    ∧ (read_device esEmpty staleDevice
        { tbNotConnected with disconnect_result := some SErr.disconnectFail } 0 110 =
        read_device esEmpty staleDevice tbNotConnected 0 110)
    ∧ (read_device esEmpty staleDevice tbHappyDiscFail 0 110).2.2.error =
        some SErr.disconnectFail := by
  refine ⟨?_, ?_, ?_⟩
  · exact (read_device_disconnect_semantics esEmpty staleDevice tbNotifyFailDiscFail
      0 110 rfl).1 SErr.notifyFail rfl
  · exact (read_device_disconnect_semantics esEmpty staleDevice tbNotConnected
      0 110 rfl).2.1 rfl (some SErr.disconnectFail)
  · refine (read_device_disconnect_semantics esEmpty staleDevice tbHappyDiscFail
      0 110 rfl).2.2 rfl ?_
    have htake : payload05.take 110 = payload05 := by decide
    simp [run_connected, tbHappyDiscFail, htake, parse_payload05_eval]

/-- Claim C2 is refuted on the repository test's own input: on five garbage
bytes followed by a valid 110-byte frame, the window scan accepts the
misaligned slice at offset 0 (whose decoded voltage is a junk 0.02 V but
passes every range check, the source having no positive lower voltage bound),
so the returned window is the first 110 bytes of the stream and not the true
frame at offset 5. -/
theorem find_window_misaligned_eval :
    Option.map Prod.fst (find_valid_payload_window misalignedStream 110) =
      some (misalignedStream.take 110)
    ∧ misalignedStream.take 110 ≠ validPayload43 := by
  constructor
  · have h6 : List.range (misalignedStream.length + 1 - 110) = [0, 1, 2, 3, 4, 5] := by decide
    simp only [find_valid_payload_window, h6, List.findSome?]
    simp [parse_slice0_eval]
  · decide

/-- Claim C3 part-evaluation: a 150 V frame is rejected and a 12-byte payload
is rejected, but the 0.5 V frame built exactly as the repository test
`test_parse_shunt_payload_rejects_unrealistically_low_voltage` builds it
parses successfully — the source's only voltage lower bound is `voltage < 0`. -/
theorem parse_voltage_bound_eval :
    parse_shunt_payload payload150 = none
    ∧ parse_shunt_payload (List.replicate 12 0) = none
    ∧ parse_shunt_payload payload05 =
        some ⟨1/2, -27/5, -27/10, some (427/5), none, some (131/10), some (49/2)⟩ :=
  ⟨parse_payload150_eval, parse_short12_eval, parse_payload05_eval⟩

/-- Claim C9: when voltage, current and power pass the plausibility checks,
an out-of-range battery temperature or state of charge does not make
`parse_shunt_payload` return `none`: the offending field alone is nulled and
every other field of the returned mapping is kept exactly as decoded. -/
theorem parse_nulls_implausible_aux_fields (p : List Nat) (v c : ℚ)
    (hv : bytes_to_number p 25 3 false (1/1000) (some 2) = some v)
    (hc : bytes_to_number p 21 3 true (1/1000) (some 2) = some c)
    (hvr : ¬(v < 0 ∨ 80 < v)) (hcr : ¬ 500 < |c|)
    (hpr : ¬ 10000 < |roundTo (v * c) 2|) :
    parse_shunt_payload p =
      some ⟨v, c, roundTo (v * c) 2,
        (match bytes_to_number p 34 2 false (1/10) (some 1) with
         | some s => if s < 0 ∨ 200 < s then none else some s
         | none => none),
        none,
        bytes_to_number p 30 2 false (1/1000) (some 2),
        (match bytes_to_number p 66 2 false (1/10) (some 1) with
         | some t => if t < -40 ∨ 100 < t then none else some t
         | none => none)⟩ := by
  simp only [parse_shunt_payload, hv, hc]
  rw [if_neg hvr, if_neg hcr, if_neg hpr]

theorem parse_nulls_implausible_aux_fields_witness :
    parse_shunt_payload payloadBadAux =
      some ⟨66/5, -27/5, -1782/25, none, none, some (131/10), none⟩ := by
  have h := parse_nulls_implausible_aux_fields payloadBadAux (66/5) (-27/5)
    ((btn_unsigned_eval payloadBadAux 25 3 (1/1000) 2 13200 (by decide) (by decide)).trans
      (by norm_num [roundTo, rhe]))
    ((btn_signed_large_eval payloadBadAux 21 3 (1/1000) 2 16771816 (by decide) (by decide)
        (by decide)).trans (by push_cast; norm_num [roundTo, rhe]))
    (by norm_num)
    (by rw [not_lt, abs_le]; constructor <;> norm_num)
    (by rw [not_lt, abs_le]; constructor <;> norm_num [roundTo, rhe])
  rw [h]
  have hsoc := btn_unsigned_eval payloadBadAux 34 2 (1/10) 1 2500 (by decide) (by decide)
  have ht := btn_unsigned_eval payloadBadAux 66 2 (1/10) 1 1500 (by decide) (by decide)
  have hst := btn_unsigned_eval payloadBadAux 30 2 (1/1000) 2 13100 (by decide) (by decide)
  rw [hsoc, ht, hst]
  norm_num [roundTo, rhe]

/-- Claim C10: `parse_shunt_payload` does not enforce the 110-byte frame
length: any payload long enough for the voltage and current fields but
shorter than 32 bytes whose decoded voltage, current and derived power pass
the range checks yields a successful mapping, with the fields whose offsets
lie past the end (`starter_battery_voltage`, `shunt_soc`,
`battery_temperature`) null rather than causing rejection. -/
theorem parse_accepts_short_payload (p : List Nat) (v c : ℚ)
    (hlen : p.length < 32)
    (hv : bytes_to_number p 25 3 false (1/1000) (some 2) = some v)
    (hc : bytes_to_number p 21 3 true (1/1000) (some 2) = some c)
    (hvr : ¬(v < 0 ∨ 80 < v)) (hcr : ¬ 500 < |c|)
    (hpr : ¬ 10000 < |roundTo (v * c) 2|) :
    parse_shunt_payload p = some ⟨v, c, roundTo (v * c) 2, none, none, none, none⟩ := by
  have h30 := btn_none p 30 2 false (1/1000) (some 2) (by omega)
  have h34 := btn_none p 34 2 false (1/10) (some 1) (by omega)
  have h66 := btn_none p 66 2 false (1/10) (some 1) (by omega)
  simp only [parse_shunt_payload, hv, hc, h30, h34, h66]
  rw [if_neg hvr, if_neg hcr, if_neg hpr]

theorem parse_accepts_short_payload_witness :
    parse_shunt_payload (List.replicate 28 0) =
      some ⟨0, 0, roundTo (0 * 0) 2, none, none, none, none⟩ := by
  refine parse_accepts_short_payload (List.replicate 28 0) 0 0 (by decide) ?_ ?_
    (by norm_num) ?_ ?_
  · exact (btn_unsigned_eval _ 25 3 (1/1000) 2 0 (by decide) (by decide)).trans
      (by norm_num [roundTo, rhe])
  · exact (btn_signed_small_eval _ 21 3 (1/1000) 2 0 (by decide) (by decide) (by decide)).trans
      (by norm_num [roundTo, rhe])
  · rw [not_lt, abs_le]; constructor <;> norm_num
  · rw [not_lt, abs_le]; constructor <;> norm_num [roundTo, rhe]
